import Mathlib

/-!
Shallow embedding of the `react-sound-bars` audio visualizer
(`src/src/scripts.ts`, `src/src/index.tsx`, `src/src/types.ts`).

JavaScript numbers are embedded as `ℚ` (exact arithmetic); bar indices and
frame counters as `ℕ`.  Asynchronous effects (the load pipeline, the
animation-frame scheduler, the ended-event dispatch) are embedded as explicit
state-passing functions on small state records, with emitted user-visible
callbacks recorded in an event log.
-/

namespace ReactSoundBars

/-- From `types.ts` line 11: the possible states of the audio source. -/
inductive AudioState
  | unset
  | loading
  | pending
  | paused
  | playing
  | ended
deriving DecidableEq

/-- From `types.ts` lines 13-15: a bar width is a constant number or a function of
`(canvasWidth, bufferLength)`. -/
inductive CustomBarWidthArg
  | const (w : ℚ)
  | fn (f : ℚ → ℚ → ℚ)

/-- From `types.ts` lines 23-29: the bar color is a constant style
(string / gradient / pattern, embedded as `String`) or a function of three
numbers returning a style.  The declared parameter names there are
`(barHeight, bufferLength, index)`. -/
inductive CustomBarColorArg
  | const (c : String)
  | fn (f : ℚ → ℚ → ℚ → String)

/-- From `types.ts` lines 31-61 plus the `ctx.fillStyle` assignment at
`scripts.ts` line 117: everything the draw primitive receives for one bar. -/
structure BarRender where
  fillStyle : String
  canvasWidth : ℚ
  canvasHeight : ℚ
  barWidth : ℚ
  barHeight : ℚ
  x : ℚ
  index : Nat
deriving DecidableEq

/-- From `scripts.ts` lines 96-99: `typeof barWidth === "function" ?
barWidth(ctx.canvas.width, buffer.length) : barWidth`. -/
def resolveBarWidth : CustomBarWidthArg → ℚ → ℚ → ℚ
  | .fn f, canvasWidth, bufferLength => f canvasWidth bufferLength
  | .const w, _, _ => w

/-- From `scripts.ts` lines 114-115: `typeof barColor === "function" ?
barColor(a, b, c) : barColor`, with whatever arguments the call site passes. -/
def resolveBarColor : CustomBarColorArg → ℚ → ℚ → ℚ → String
  | .fn f, a, b, c => f a b c
  | .const c, _, _, _ => c

/-- From `scripts.ts` lines 103-129, the bar loop of `draw`: for each magnitude
`m` (JS `buffer[i]`), `bh := barHeight(m, buffer.length, i)`,
`bc := barColor(bh, m, i)` (line 115 passes `defaultHeight`, the raw
magnitude, as the second argument), draw at the running cursor `x`, then
`x += bw + 1` (line 128 adds the literal `1`). -/
def drawBars (bw bufferLength : ℚ) (barHeight : ℚ → ℚ → ℚ → ℚ)
    (barColor : CustomBarColorArg) (cw ch : ℚ) :
    List ℚ → ℚ → Nat → List BarRender
  | [], _, _ => []
  | m :: rest, x, i =>
    let bh := barHeight m bufferLength (i : ℚ)
    let bc := resolveBarColor barColor bh m (i : ℚ)
    ⟨bc, cw, ch, bw, bh, x, i⟩ ::
      drawBars bw bufferLength barHeight barColor cw ch rest (x + (bw + 1)) (i + 1)

/-- From `scripts.ts` lines 89-129, one full executed visualization pass: sample
the analyser buffer (given here as the list `mags` of magnitudes), clear,
compute `bw` once, then run the bar loop from `x = 0`, `i = 0`. -/
def drawPass (cw ch : ℚ) (barWidth : CustomBarWidthArg)
    (barHeight : ℚ → ℚ → ℚ → ℚ) (barColor : CustomBarColorArg)
    (mags : List ℚ) : List BarRender :=
  let bw := resolveBarWidth barWidth cw (mags.length : ℚ)
  drawBars bw (mags.length : ℚ) barHeight barColor cw ch mags 0 0

/-- Web Audio: `AnalyserNode.frequencyBinCount = fftSize / 2`; the sampled
buffer (`scripts.ts` line 89) has this many usable bins. -/
def frequencyBinCount (fftSize : Nat) : Nat := fftSize / 2

/-- Observable outcome of running the animation-frame loop for a number of
scheduled callbacks: the closure-captured `frame` counter, the number of
executed full passes, and how many bins each executed pass iterated over. -/
structure LoopRun where
  frame : Nat
  passes : Nat
  binsPerPass : List Nat
deriving DecidableEq

/-- From `scripts.ts` lines 81-132, one invocation of `draw`: `frame++`; if
`frame % stagger !== 0` only re-arm, otherwise execute the full pass (over
`bins` bins) and re-arm. -/
def drawStep (stagger bins : Nat) (r : LoopRun) : LoopRun :=
  let f := r.frame + 1
  if f % stagger ≠ 0 then { r with frame := f }
  else ⟨f, r.passes + 1, r.binsPerPass ++ [bins]⟩

/-- Run `totalFrames` scheduled animation-frame callbacks from the initial
`frame = 0` closure state (`scripts.ts` line 79). -/
def runFrames (stagger bins : Nat) : Nat → LoopRun
  | 0 => ⟨0, 0, []⟩
  | t + 1 => drawStep stagger bins (runFrames stagger bins t)

theorem runFrames_frame (stagger bins t : Nat) :
    (runFrames stagger bins t).frame = t := by
  induction t with
  | zero => rfl
  | succ t ih =>
    simp only [runFrames, drawStep]
    split <;> simp [ih]

theorem runFrames_passes (stagger bins t : Nat) :
    (runFrames stagger bins t).passes = t / stagger := by
  induction t with
  | zero => simp [runFrames]
  | succ t ih =>
    have hmod : ((t + 1) % stagger = 0) ↔ stagger ∣ (t + 1) :=
      (Nat.dvd_iff_mod_eq_zero).symm
    simp only [runFrames, drawStep, runFrames_frame]
    rw [Nat.succ_div]
    split
    · rename_i hne
      have : ¬ stagger ∣ (t + 1) := fun hd => hne (hmod.mpr hd)
      simp [ih, this]
    · rename_i hne
      have hz : (t + 1) % stagger = 0 := by
        by_contra hc
        exact hne hc
      have : stagger ∣ (t + 1) := hmod.mp hz
      simp [ih, this]

theorem runFrames_binsPerPass (stagger bins t : Nat) :
    (runFrames stagger bins t).binsPerPass =
      List.replicate (t / stagger) bins := by
  induction t with
  | zero => simp [runFrames]
  | succ t ih =>
    have hmod : ((t + 1) % stagger = 0) ↔ stagger ∣ (t + 1) :=
      (Nat.dvd_iff_mod_eq_zero).symm
    simp only [runFrames, drawStep, runFrames_frame]
    rw [Nat.succ_div]
    split
    · rename_i hne
      have : ¬ stagger ∣ (t + 1) := fun hd => hne (hmod.mpr hd)
      simp [ih, this]
    · rename_i hne
      have hz : (t + 1) % stagger = 0 := by
        by_contra hc
        exact hne hc
      have : stagger ∣ (t + 1) := hmod.mp hz
      simp [ih, this, List.replicate_succ']

theorem drawPass_length (cw ch : ℚ) (barWidth : CustomBarWidthArg)
    (barHeight : ℚ → ℚ → ℚ → ℚ) (barColor : CustomBarColorArg)
    (mags : List ℚ) : (drawPass cw ch barWidth barHeight barColor mags).length
      = mags.length := by
  suffices h : ∀ (bw bl : ℚ) (l : List ℚ) (x : ℚ) (i : Nat),
      (drawBars bw bl barHeight barColor cw ch l x i).length = l.length by
    simp [drawPass, h]
  intro bw bl l
  induction l with
  | nil => intro x i; rfl
  | cons m rest ih => intro x i; simp [drawBars, ih]

/-- From `index.tsx` line 16: default `barWidth = (w, l) => w / l`. -/
def defaultBarWidth : CustomBarWidthArg := .fn (fun w l => w / l)

/-- From `index.tsx` line 17: default `barHeight = h => h`. -/
def defaultBarHeight : ℚ → ℚ → ℚ → ℚ := fun h _ _ => h

/-- From `index.tsx` line 18: default `barColor = "green"` — a constant style
string, not a function. -/
def defaultBarColor : CustomBarColorArg := .const "green"

/-- From `index.tsx` lines 9-28: the render-relevant configuration surface of the
`AudioVisualizer` props, with its defaults. -/
structure AudioVisualizerProps where
  stagger : Nat := 1
  barWidth : CustomBarWidthArg := defaultBarWidth
  barHeight : ℚ → ℚ → ℚ → ℚ := defaultBarHeight
  barColor : CustomBarColorArg := defaultBarColor
  spaceBetweenBars : ℚ := 1
  fftSize : Nat := 2048

/-- From `index.tsx` lines 95-103: the component builds the animation handlers
from `(analyser, ctx, stagger, barWidth, barHeight, barColor,
customDrawFunction)`.  `spaceBetweenBars` is not among the arguments, so an
executed pass depends only on the other fields. -/
def componentDrawPass (p : AudioVisualizerProps) (cw ch : ℚ)
    (mags : List ℚ) : List BarRender :=
  drawPass cw ch p.barWidth p.barHeight p.barColor mags

theorem drawBars_get?_x (bw bl : ℚ) (barHeight : ℚ → ℚ → ℚ → ℚ)
    (barColor : CustomBarColorArg) (cw ch : ℚ) :
    ∀ (mags : List ℚ) (x : ℚ) (i k : Nat), k < mags.length →
      ((drawBars bw bl barHeight barColor cw ch mags x i).get? k).map
          (fun r => r.x) = some (x + (k : ℚ) * (bw + 1)) := by
  intro mags
  induction mags with
  | nil => intro x i k hk; exact absurd hk (by simp)
  | cons m rest ih =>
    intro x i k hk
    match k with
    | 0 => simp [drawBars]
    | k + 1 =>
      have hk' : k < rest.length := by simpa using hk
      simp only [drawBars, List.get?_cons_succ]
      rw [ih (x + (bw + 1)) (i + 1) k hk']
      congr 1
      push_cast
      ring

/-- C1: the render loop's `frame` counter increments on every scheduled
invocation, and for stagger `N ≥ 1` exactly `⌊totalFrames / N⌋` of
`totalFrames` scheduled callbacks execute the full visualization pass; with
`N = 1` every callback executes a pass; with `fftSize = 2048` (1024 usable
bins), stagger 2 and 4 scheduled frames, exactly 2 passes execute, each
iterating over all 1024 bins. -/
theorem renderLoop_stagger_floor (totalFrames N : Nat) (hN : 1 ≤ N) :
    (runFrames N (frequencyBinCount 2048) totalFrames).frame = totalFrames ∧
    (runFrames N (frequencyBinCount 2048) totalFrames).passes
      = totalFrames / N ∧
    (runFrames 1 (frequencyBinCount 2048) totalFrames).passes = totalFrames ∧
    (runFrames N (frequencyBinCount 2048) totalFrames).binsPerPass
      = List.replicate (totalFrames / N) (frequencyBinCount 2048) ∧
    frequencyBinCount 2048 = 1024 ∧
    runFrames 2 (frequencyBinCount 2048) 4
      = ⟨4, 2, [1024, 1024]⟩ ∧
    (∀ (cw ch : ℚ) (bwArg : CustomBarWidthArg) (bh : ℚ → ℚ → ℚ → ℚ)
        (bc : CustomBarColorArg) (mags : List ℚ),
      (drawPass cw ch bwArg bh bc mags).length = mags.length) := by
  refine ⟨runFrames_frame N _ totalFrames, runFrames_passes N _ totalFrames,
    ?_, runFrames_binsPerPass N _ totalFrames, rfl, by decide,
    fun cw ch bwArg bh bc mags => drawPass_length cw ch bwArg bh bc mags⟩
  rw [runFrames_passes]
  exact Nat.div_one totalFrames

/-- C1 witness: the general theorem applied to the spec's concrete
scenario (`stagger = 2`, `totalFrames = 4`, resolution 2048). -/
theorem renderLoop_stagger_floor_witness :
    (runFrames 2 (frequencyBinCount 2048) 4).frame = 4 ∧
    (runFrames 2 (frequencyBinCount 2048) 4).passes = 4 / 2 :=
  ⟨(renderLoop_stagger_floor 4 2 (by decide)).1,
   (renderLoop_stagger_floor 4 2 (by decide)).2.1⟩

/-- A color-argument probe that reveals which value the render loop passes
as the second argument of a custom bar-color function. -/
def probeColor : ℚ → ℚ → ℚ → String :=
  fun _ b _ => if b = 7 then "second-arg-is-the-magnitude" else "second-arg-is-not-the-magnitude"

/-- C6: the x cursor in an executed draw pass advances by `barWidth + 1`
(`scripts.ts` line 128), not by `barWidth + spaceBetweenBars`: with
configured `spaceBetweenBars = 5` and constant `barWidth = 10` over two
bins, bar 1 is drawn at `x = 11`, not `10 + 5 = 15`; and the pass is
entirely independent of the configured `spaceBetweenBars`, which
`index.tsx` lines 95-103 never forward to `createAnimationHandlers`. -/
theorem spaceBetweenBars_ignored :
    (((componentDrawPass { barWidth := .const 10, spaceBetweenBars := 5 }
        100 50 [0, 0]).get? 1).map (fun r => r.x)) = some 11 ∧
    (11 : ℚ) ≠ 10 + 5 ∧
    (∀ s : ℚ,
      componentDrawPass { barWidth := .const 10, spaceBetweenBars := s }
        = componentDrawPass { barWidth := .const 10, spaceBetweenBars := 5 }) ∧
    (∀ (bw s : ℚ) (bh : ℚ → ℚ → ℚ → ℚ) (bc : CustomBarColorArg)
        (cw ch : ℚ) (mags : List ℚ),
      componentDrawPass
          { barWidth := .const bw, barHeight := bh, barColor := bc,
            spaceBetweenBars := s } cw ch mags
        = componentDrawPass
          { barWidth := .const bw, barHeight := bh, barColor := bc,
            spaceBetweenBars := 1 } cw ch mags) := by
  refine ⟨?_, by norm_num, fun s => rfl, fun bw s bh bc cw ch mags => rfl⟩
  have h := drawBars_get?_x 10 ((2 : Nat) : ℚ) defaultBarHeight
    defaultBarColor 100 50 [0, 0] 0 0 1 (by simp)
  simpa [componentDrawPass, drawPass, resolveBarWidth,
    show (10 : ℚ) + 1 = 11 by norm_num] using h

/-- C6 evaluation at the failing input: with `spaceBetweenBars = 5` and
`barWidth = 10` the second bar's x is `11`, where the claim requires
`i * (barWidth + spaceBetweenBars) = 15`. -/
theorem spaceBetweenBars_failing_input :
    (((componentDrawPass { barWidth := .const 10, spaceBetweenBars := 5 }
        100 50 [0, 0]).get? 1).map (fun r => r.x)) ≠ some (1 * (10 + 5)) := by
  have h := drawBars_get?_x 10 ((2 : Nat) : ℚ) defaultBarHeight
    defaultBarColor 100 50 [0, 0] 0 0 1 (by simp)
  intro hc
  rw [show ((componentDrawPass { barWidth := .const 10, spaceBetweenBars := 5 }
        100 50 [0, 0]).get? 1).map (fun r => r.x)
      = ((drawBars 10 ((2 : Nat) : ℚ) defaultBarHeight defaultBarColor
        100 50 [0, 0] 0 0).get? 1).map (fun r => r.x) from rfl, h] at hc
  norm_num at hc

/-- C7: the second argument the render loop passes to a custom bar-color
function is the raw magnitude `defaultHeight` (`scripts.ts` line 115:
`barColor(bh, defaultHeight, i)`), not the buffer length that `types.ts`
lines 23-29 declare: over the two-bin buffer `[7, 3]`, a probe observing its
second argument sees the magnitude `7` on bar 0, whereas calling it in the
declared convention `(barHeight, bufferLength, index)` would see `2`. -/
theorem barColor_second_arg :
    ((componentDrawPass { barColor := .fn probeColor } 100 50 [7, 3]).get? 0).map
        (fun r => r.fillStyle) = some "second-arg-is-the-magnitude" ∧
    resolveBarColor (.fn probeColor) 7 2 0 = "second-arg-is-not-the-magnitude" ∧
    ("second-arg-is-the-magnitude" : String) ≠ "second-arg-is-not-the-magnitude" := by
  refine ⟨?_, ?_, by decide⟩
  · simp [componentDrawPass, drawPass, drawBars, resolveBarColor, probeColor,
      defaultBarHeight]
  · simp [resolveBarColor, probeColor]

/-- C9 counterexample: at the claim's concrete input (magnitude 5,
`bufferLength = 360`, `index = 90`) the default bar color resolves to the
constant `"green"` (`index.tsx` line 18), not to a hue-90 color; the
default is not a hue ramp at all. -/
theorem defaultBarColor_not_hue_ramp :
    defaultBarColor = .const "green" ∧
    resolveBarColor defaultBarColor 5 360 90 = "green" ∧
    ("green" : String) ≠ "hsl(90, 100%, 50%)" :=
  ⟨rfl, rfl, by decide⟩

/-- C9 amended: when no bar color is supplied, the bar color is the
constant `"green"` for every magnitude, buffer length and index — no hue
ramp is applied. -/
theorem defaultBarColor_constant_green :
    (∀ (h bl i : ℚ), resolveBarColor defaultBarColor h bl i = "green") ∧
    ((componentDrawPass { } 100 50 [5, 5]).map (fun r => r.fillStyle)
      = ["green", "green"]) := by
  refine ⟨fun h bl i => rfl, ?_⟩
  simp [componentDrawPass, drawPass, drawBars, resolveBarColor, defaultBarColor]

/-- From `index.tsx` lines 77-78: the two timing refs, `startTime` and
`pauseTime` (the accumulated pause offset). -/
structure TimingState where
  startTime : ℚ
  pauseTime : ℚ
deriving DecidableEq

/-- From `index.tsx` line 244 (the `paused` case):
`pauseTime.current = audioContext.currentTime - startTime.current`. -/
def pausedCaseTiming (now : ℚ) (t : TimingState) : TimingState :=
  { t with pauseTime := now - t.startTime }

/-- From `index.tsx` line 232 (the `playing` case after `paused`):
`startTime.current = audioContext.currentTime - pauseTime.current`. -/
def resumeCaseTiming (now : ℚ) (t : TimingState) : TimingState :=
  { t with startTime := now - t.pauseTime }

/-- From `index.tsx` lines 126-127: both refs are reset to `0` when the source
identifier changes (fresh load). -/
def srcChangeTiming : TimingState := ⟨0, 0⟩

/-- From `index.tsx` lines 255-256: both refs are reset to `0` in the `ended`
case. -/
def endedCaseTiming : TimingState := ⟨0, 0⟩

/-- From `scripts.ts` line 40 (`startAudioSource`):
`startTime.current = currentTime - pauseTime.current` when playback starts. -/
def startSourceTiming (now : ℚ) (t : TimingState) : TimingState :=
  { t with startTime := now - t.pauseTime }

/-- From `index.tsx` line 149: elapsed time reported by the notifier is
`audioContext.currentTime - startTime.current`. -/
def elapsed (now : ℚ) (t : TimingState) : ℚ := now - t.startTime

/-- Run an alternating pause/resume command sequence through the timing
state: the list holds the clock value at each command, the `Bool` says
whether playback is currently in the `playing` state (so the next command
is a pause) or in `paused` (so the next command is a resume). -/
def runTiming : List ℚ → Bool → TimingState → TimingState × Bool
  | [], playing, st => (st, playing)
  | now :: rest, true, st => runTiming rest false (pausedCaseTiming now st)
  | now :: rest, false, st => runTiming rest true (resumeCaseTiming now st)

/-- Specification-side ghost clock: the wall-clock time spent in the
`playing` state (paused intervals excluded) across the same alternating
command sequence, measured up to `now`. -/
def playedTime : List ℚ → Bool → ℚ → ℚ → ℚ
  | [], playing, last, now => if playing then now - last else 0
  | t :: rest, playing, last, now =>
    (if playing then t - last else 0) + playedTime rest (!playing) t now

/-- The elapsed time the component would report at clock value `now`: while
playing it is `now - startTime`; while paused, `startTime` is stale and the
frozen offset `pauseTime` is the meaningful elapsed value (it is what the
next resume restores). -/
def elapsedAt (p : TimingState × Bool) (now : ℚ) : ℚ :=
  if p.2 then elapsed now p.1 else p.1.pauseTime

theorem runTiming_elapsed (ts : List ℚ) :
    ∀ (playing : Bool) (st : TimingState) (last now : ℚ),
      elapsedAt (runTiming ts playing st) now
        = elapsedAt (st, playing) last + playedTime ts playing last now := by
  induction ts with
  | nil =>
    intro playing st last now
    cases playing <;> simp [runTiming, playedTime, elapsedAt, elapsed]
  | cons t rest ih =>
    intro playing st last now
    cases playing with
    | true =>
      rw [show runTiming (t :: rest) true st
          = runTiming rest false (pausedCaseTiming t st) from rfl]
      rw [ih false (pausedCaseTiming t st) t now]
      simp [elapsedAt, elapsed, pausedCaseTiming, playedTime]
      try ring
    | false =>
      rw [show runTiming (t :: rest) false st
          = runTiming rest true (resumeCaseTiming t st) from rfl]
      rw [ih true (resumeCaseTiming t st) t now]
      simp [elapsedAt, elapsed, resumeCaseTiming, playedTime]
      try ring

/-- C2: the timing assignments are exactly those of the code — pause sets
`pauseTime := now - startTime`, resume sets `startTime := now - pauseTime`,
fresh load and the ended transition reset both to zero — and consequently,
for a playback started at clock `t0` after a fresh load, after any
alternating sequence of pause/resume commands the reported elapsed time
`now - startTime` equals the wall-clock time spent in the playing state,
paused intervals excluded. -/
theorem timing_elapsed_correct :
    (∀ (now : ℚ) (t : TimingState),
      pausedCaseTiming now t = ⟨t.startTime, now - t.startTime⟩) ∧
    (∀ (now : ℚ) (t : TimingState),
      resumeCaseTiming now t = ⟨now - t.pauseTime, t.pauseTime⟩) ∧
    srcChangeTiming = ⟨0, 0⟩ ∧
    endedCaseTiming = ⟨0, 0⟩ ∧
    (∀ (t0 now : ℚ) (ts : List ℚ),
      elapsedAt (runTiming ts true (startSourceTiming t0 srcChangeTiming)) now
        = playedTime ts true t0 now) := by
  refine ⟨fun now t => rfl, fun now t => rfl, rfl, rfl, fun t0 now ts => ?_⟩
  rw [runTiming_elapsed ts true (startSourceTiming t0 srcChangeTiming) t0 now]
  simp [elapsedAt, elapsed, startSourceTiming, srcChangeTiming]

/-- Lifecycle of the animation-loop instances created by
`createAnimationHandlers`: `loops` records, per created handler pair in
creation order, whether that instance currently has an armed animation
frame (a pending `requestAnimationFrame` that its own `draw` keeps
renewing); `handlerIdx` is the instance the `startRef`/`stopRef` handles
point at (`index.tsx` lines 105-106). -/
structure LoopsState where
  loops : List Bool
  handlerIdx : Nat
deriving DecidableEq

/-- Handler `startRef.current()`: arms the instance the refs point at
(`scripts.ts` line 134 returns `draw` as the start handle). -/
def startAnimation (s : LoopsState) : LoopsState :=
  { s with loops := s.loops.set s.handlerIdx true }

/-- Handler `stopRef.current()`: `cancelAnimationFrame(frameID)` of the instance the
refs point at; cancelling an instance that is not armed is a no-op. -/
def stopAnimation (s : LoopsState) : LoopsState :=
  { s with loops := s.loops.set s.handlerIdx false }

/-- From `index.tsx` lines 92-107: the effect that rebuilds the handlers when
`analyser` (resolution) or `stagger` changes.  It creates a fresh, unarmed
instance and repoints the refs at it; the effect has no cleanup and invokes
no `stop`, so the previously armed instance is left untouched. -/
def reconfigureEffect (s : LoopsState) : LoopsState :=
  ⟨s.loops ++ [false], s.loops.length⟩

/-- Number of loop instances currently armed (actively re-scheduling). -/
def activeLoops (s : LoopsState) : Nat := s.loops.count true

/-- A mid-flight playback with the single original loop armed. -/
def playingLoops : LoopsState := ⟨[true], 0⟩

/-- C5 evaluation at the failing input: reconfiguring (`stagger` change)
while playback is mid-flight leaves the old loop armed — the effect cancels
nothing — and after the next pause (`index.tsx` line 243, stopping only the
new, never-armed instance) and resume (line 231, starting the new
instance), both the old and the new loop are armed: two active loops, where
the claim requires at most one. -/
theorem reconfigure_leaves_two_loops :
    (reconfigureEffect playingLoops).loops.get? 0 = some true ∧
    activeLoops (reconfigureEffect playingLoops) = 1 ∧
    startAnimation (stopAnimation (reconfigureEffect playingLoops))
      = ⟨[true, true], 1⟩ ∧
    activeLoops (startAnimation (stopAnimation (reconfigureEffect playingLoops)))
      = 2 := by
  refine ⟨rfl, rfl, rfl, rfl⟩

/-- User-visible notifications fired by the component. -/
inductive Ev
  | stateChange (s : AudioState)
  | sourceLoaded (src : String)
  | sourceEnded
deriving DecidableEq

/-- An `AudioBufferSourceNode` produced by one load operation: the source
identifier it was loaded from, whether its `onended` handler is currently
attached, whether it was started, whether it was stopped. -/
structure Source where
  src : String
  onendedAttached : Bool
  started : Bool
  stopped : Bool
deriving DecidableEq

/-- Orchestrator state of the `AudioVisualizer` component: the current
source identifier prop, the `sourceRef`, the identifiers of loads still in
flight, the audio state and the `prevState` ref, the timing refs, whether
the animation is running, and the log of emitted notifications. -/
structure AppState where
  currentSrc : String
  sourceRef : Option Source
  pendingLoads : List String
  audioState : AudioState
  prevState : AudioState
  timing : TimingState
  animating : Bool
  events : List Ev
deriving DecidableEq

def emit (e : Ev) (s : AppState) : AppState :=
  { s with events := s.events ++ [e] }

/-- Handler `onAudioStateChange`: stores the new state and notifies. -/
def setAudioState (a : AudioState) (s : AppState) : AppState :=
  emit (.stateChange a) { s with audioState := a }

/-- From `index.tsx` lines 117-118 applied to the replaced source:
`sourceRef.current.onended = null; sourceRef.current.stop()` — the handler
is detached before the stop. -/
def stopStaleSource (so : Source) : Source :=
  { so with onendedAttached := false, stopped := true }

/-- From `index.tsx` lines 115-139, the source-change effect: if a source is
installed and `prevState !== "pending"`, detach its `onended`, stop it and
stop the animation; then clear `sourceRef`, reset the timing refs, and kick
off `loadAndEmitAudioSource`, whose first action (`scripts.ts` line 16)
emits the `loading` state.  Returns the new state together with the
replaced (now detached and stopped) source, if any. -/
def srcChangeEffect (newSrc : String) (s : AppState) : AppState × Option Source :=
  let (s1, old) :=
    match s.sourceRef with
    | some so =>
      if s.prevState ≠ .pending
      then ({ s with animating := false }, some (stopStaleSource so))
      else (s, none)
    | none => (s, none)
  let s2 := { s1 with sourceRef := none, timing := srcChangeTiming,
                      currentSrc := newSrc,
                      pendingLoads := s1.pendingLoads ++ [newSrc] }
  (setAudioState .loading s2, old)

/-- From `scripts.ts` lines 43-67 after the awaited decode, plus `onSourceLoaded`
(`index.tsx` lines 84-87): when the in-flight load of `src` completes, it
unconditionally installs its fresh source node in `sourceRef`, attaches the
`onended` handler, fires the source-loaded notification and drives the
state to `pending`.  Nothing compares `src` with the current identifier. -/
def completeLoad (src : String) (s : AppState) : AppState :=
  if src ∈ s.pendingLoads then
    setAudioState .pending
      (emit (.sourceLoaded src)
        { s with pendingLoads := s.pendingLoads.erase src,
                 sourceRef := some ⟨src, true, false, false⟩ })
  else s

/-- The browser dispatching the `ended` event of a source (fired both on
natural completion and after `stop()`): the handler installed at
`scripts.ts` lines 61-64 runs only if still attached, and then fires the
user-visible ended notification followed by the `ended` state change. -/
def endDispatch (so : Source) (s : AppState) : AppState :=
  if so.onendedAttached then setAudioState .ended (emit .sourceEnded s) else s

/-- From `index.tsx` lines 252-259 and 265, the `ended` case of the state
effect: stop the animation, fire the ended notification again, reset the
timing refs, and record the previous state. -/
def endedCaseEffect (s : AppState) : AppState :=
  { emit .sourceEnded { s with animating := false } with
      timing := endedCaseTiming, prevState := .ended }

/-- The initial component state before any source is set. -/
def app0 : AppState := ⟨"", none, [], .unset, .unset, ⟨0, 0⟩, false, []⟩

/-- The state reached by: set src to "a"; change src to "b" while the load
of "a" is still pending; the stale load of "a" then completes. -/
def staleLoadState : AppState :=
  completeLoad "a" (srcChangeEffect "b" (srcChangeEffect "a" app0).1).1

/-- C3 evaluation at the failing input: when the load of "a" completes
after the source identifier has already changed to "b", the stale
completion applies all of its side effects — it installs the "a" source
node (handler attached) as the current source even though the current
identifier is "b", fires the source-loaded notification for "a", and
drives the state machine to `pending`. -/
theorem staleLoad_applies_side_effects :
    staleLoadState.currentSrc = "b" ∧
    staleLoadState.sourceRef = some ⟨"a", true, false, false⟩ ∧
    staleLoadState.audioState = .pending ∧
    staleLoadState.events.count (.sourceLoaded "a") = 1 ∧
    staleLoadState.pendingLoads = ["b"] := by
  refine ⟨rfl, rfl, rfl, rfl, rfl⟩

/-- C4: a programmatic stop (a source-identifier change replacing an
installed source, with `prevState ≠ pending`) fires no user-visible ended
notification and no `ended` state change — only the `loading`
notification; the replaced source is returned with its `onended` handler
detached before the stop, so dispatching its end event is a no-op; and in
general the ended notification and the `ended` transition can only arise
from dispatching the end event of a source whose handler is still
attached, i.e. from natural completion of a non-replaced source. -/
theorem programmaticStop_never_fires_ended (s : AppState) (newSrc : String)
    (so : Source) (h1 : s.sourceRef = some so)
    (h2 : s.prevState ≠ .pending) :
    (srcChangeEffect newSrc s).1.events = s.events ++ [.stateChange .loading] ∧
    (srcChangeEffect newSrc s).1.events.count .sourceEnded
      = s.events.count .sourceEnded ∧
    (srcChangeEffect newSrc s).1.events.count (.stateChange .ended)
      = s.events.count (.stateChange .ended) ∧
    (srcChangeEffect newSrc s).1.audioState = .loading ∧
    (srcChangeEffect newSrc s).2 = some (stopStaleSource so) ∧
    (stopStaleSource so).onendedAttached = false ∧
    (∀ s' : AppState, endDispatch (stopStaleSource so) s' = s') ∧
    (∀ (so' : Source) (s' : AppState), so'.onendedAttached = false →
      endDispatch so' s' = s') := by
  have hch : srcChangeEffect newSrc s
      = (setAudioState .loading
          { s with animating := false, sourceRef := none,
                   timing := srcChangeTiming, currentSrc := newSrc,
                   pendingLoads := s.pendingLoads ++ [newSrc] },
         some (stopStaleSource so)) := by
    simp [srcChangeEffect, h1, h2]
  refine ⟨?_, ?_, ?_, ?_, ?_, rfl, ?_, ?_⟩
  · rw [hch]; rfl
  · rw [hch]; simp [setAudioState, emit]
  · rw [hch]; simp [setAudioState, emit]
  · rw [hch]; rfl
  · rw [hch]
  · intro s'; simp [endDispatch, stopStaleSource]
  · intro so' s' ha; simp [endDispatch, ha]

/-- C4 witness: the theorem applied to a concrete playing state whose
installed source is replaced by a source-identifier change. -/
theorem programmaticStop_never_fires_ended_witness :
    (srcChangeEffect "b"
        ⟨"a", some ⟨"a", true, true, false⟩, [], .playing, .playing,
         ⟨0, 0⟩, true, []⟩).1.events
      = ([] : List Ev) ++ [.stateChange .loading] ∧
    (srcChangeEffect "b"
        ⟨"a", some ⟨"a", true, true, false⟩, [], .playing, .playing,
         ⟨0, 0⟩, true, []⟩).1.events.count .sourceEnded
      = ([] : List Ev).count .sourceEnded :=
  ⟨(programmaticStop_never_fires_ended
      ⟨"a", some ⟨"a", true, true, false⟩, [], .playing, .playing,
       ⟨0, 0⟩, true, []⟩ "b" ⟨"a", true, true, false⟩ rfl (by decide)).1,
   (programmaticStop_never_fires_ended
      ⟨"a", some ⟨"a", true, true, false⟩, [], .playing, .playing,
       ⟨0, 0⟩, true, []⟩ "b" ⟨"a", true, true, false⟩ rfl (by decide)).2.1⟩

/-- C10: on natural completion of a source with its handler attached, the
user-visible `onSourceEnded` callback fires exactly twice — once from the
`onended` handler before the `ended` state change, and once more when the
state effect processes the `ended` state. -/
theorem naturalEnd_fires_sourceEnded_twice (s : AppState) (src : String)
    (started : Bool) :
    (endedCaseEffect (endDispatch ⟨src, true, started, false⟩ s)).events
      = s.events ++ [.sourceEnded, .stateChange .ended, .sourceEnded] ∧
    (endedCaseEffect (endDispatch ⟨src, true, started, false⟩ s)).events.count
        .sourceEnded
      = s.events.count .sourceEnded + 2 := by
  constructor
  · simp [endedCaseEffect, endDispatch, setAudioState, emit]
  · simp [endedCaseEffect, endDispatch, setAudioState, emit,
      List.count_append]

/-- Configuration errors of the component. -/
inductive ConfigError
  | invalidConfiguration (msg : String)
deriving DecidableEq

/-- A configuration that passed validation. -/
structure ValidatedConfig where
  volume : ℚ
deriving DecidableEq

/-- Modelled from the spec: the `volume` entry of the configuration surface
is absent from the component sources under `src/` (only `README.md`
documents it — "It should be a number between 0 and 1, error will be
thrown otherwise" — and a story passes it).  Faithful to those words: an
out-of-range volume fails with a descriptive error at configuration time,
an in-range volume is passed through unchanged, never clamped. -/
def configure (volume : ℚ) : Except ConfigError ValidatedConfig :=
  if 0 ≤ volume ∧ volume ≤ 1 then .ok ⟨volume⟩
  else .error (.invalidConfiguration "volume must be a number between 0 and 1")

/-- Playback can only start from a successfully validated configuration, so
a configuration error precedes any playback. -/
def startPlayback : Except ConfigError ValidatedConfig → Option ValidatedConfig
  | .ok c => some c
  | .error _ => none

/-- C8: `volume = 1.5` is rejected at configuration time with an
invalid-configuration error, before any playback can start; and a volume
that is accepted is passed through exactly, never clamped. -/
theorem volume_out_of_range_rejected :
    configure (3 / 2)
      = .error (.invalidConfiguration "volume must be a number between 0 and 1") ∧
    startPlayback (configure (3 / 2)) = none ∧
    (∀ (v : ℚ) (c : ValidatedConfig), configure v = .ok c → c.volume = v) := by
  have h32 : ¬ ((0 : ℚ) ≤ 3 / 2 ∧ (3 : ℚ) / 2 ≤ 1) := by
    rintro ⟨-, h⟩
    norm_num at h
  refine ⟨by simp [configure, h32], by simp [configure, h32, startPlayback],
    fun v c hc => ?_⟩
  by_cases hv : (0 : ℚ) ≤ v ∧ v ≤ 1
  · simp [configure, hv] at hc
    rw [← hc]
  · simp [configure, hv] at hc

/-- C8 witness: the theorem applied with the in-range volume `1/2`
accepted unchanged. -/
theorem volume_out_of_range_rejected_witness :
    startPlayback (configure (3 / 2)) = none ∧
    (⟨1 / 2⟩ : ValidatedConfig).volume = 1 / 2 :=
  ⟨volume_out_of_range_rejected.2.1,
   volume_out_of_range_rejected.2.2 (1 / 2) ⟨1 / 2⟩ (by norm_num [configure])⟩

end ReactSoundBars
